import Mathlib

/-!
Verification of the `rest_client` repository (a thin REST/JSON client over
the `requests` library, file `src/rest_client/client.py`).

The embedding is shallow.  Python dictionaries are modelled as association
lists with unique keys (`Dict`), JSON-serialisable Python values as the
inductive `JsonVal`, and URLs in split form (`SplitURL`): the stdlib
`urlsplit`/`urlunsplit` pair round-trips the five components, so `_url_join`
is modelled directly on the components, and `urlunsplit` is reproduced for
the final URL string.  The external `requests` response object is modelled
abstractly by the record `Response`, exposing exactly the attributes the
client code consults (`status_code`, `reason`, `headers`, `content`,
`is_redirect`, and the result of `.json()`); its `raise_for_status` and the
case-insensitive header lookup are reproduced from the library contract.
The transport (`session.request`) is a parameter of `call`; `call` returns
a record of its outcome, the error-log lines it produced, the transport
invocations it made, and the final client state.
-/

/-- JSON-serialisable Python value (payloads, option values, headers). -/
inductive JsonVal : Type
  | jnull : JsonVal
  | jbool : Bool → JsonVal
  | jnum : Int → JsonVal
  | jstr : String → JsonVal
  | jarr : List JsonVal → JsonVal
  | jobj : List (String × JsonVal) → JsonVal

/-- An association list modelling a Python dict (keys unique in practice). -/
def Dict (α : Type) : Type := List (String × α)

/-- Dict lookup: value of the first entry with the given key. -/
def dget {α : Type} : Dict α → String → Option α
  | [], _ => none
  | p :: ps, k => if p.1 = k then some p.2 else dget ps k

/-- Dict membership test (`k in d`). -/
def dmem {α : Type} (d : Dict α) (k : String) : Bool :=
  (dget d k).isSome

/-- Dict assignment `d[k] = v`: replace in place if present, else append. -/
def dset {α : Type} : Dict α → String → α → Dict α
  | [], k, v => [(k, v)]
  | p :: ps, k, v => if p.1 = k then (k, v) :: ps else p :: dset ps k v

/-- Dict removal `d.pop(k)`. -/
def dpop {α : Type} : Dict α → String → Dict α
  | [], _ => []
  | p :: ps, k => if p.1 = k then ps else p :: dpop ps k

/-- Dict merge `d.update(e)`: every entry of `e` is assigned into `d`. -/
def dupdate {α : Type} (d e : Dict α) : Dict α :=
  e.foldl (fun acc p => dset acc p.1 p.2) d

/-- Well-formedness of a dict: keys are pairwise distinct. -/
def WfD {α : Type} (d : Dict α) : Prop :=
  (d.map Prod.fst).Nodup

/-- Python `pre.startswith` test on explicit character lists. -/
def charsStart : List Char → List Char → Bool
  | [], _ => true
  | _ :: _, [] => false
  | c :: cs, d :: ds => c == d && charsStart cs ds

/-- Python `s.startswith(pre)`. -/
def pyStartsWith (s pre : String) : Bool :=
  charsStart pre.data s.data

/-- Python `s.endswith(suf)`. -/
def pyEndsWith (s suf : String) : Bool :=
  charsStart suf.data.reverse s.data.reverse

/-- Escaping of one character inside a JSON string literal (json.dumps). -/
def escapeJsonChar (c : Char) : String :=
  if c = '"' then "\\\""
  else if c = '\\' then "\\\\"
  else if c = '\n' then "\\n"
  else if c = '\t' then "\\t"
  else if c = '\r' then "\\r"
  else String.singleton c

/-- Escaping of a JSON string body (json.dumps). -/
def escapeJson (s : String) : String :=
  s.data.foldl (fun acc c => acc ++ escapeJsonChar c) ""

mutual

/-- Model of `json.dumps` with the default separators of the json module. -/
def dumps : JsonVal → String
  | .jnull => "null"
  | .jbool true => "true"
  | .jbool false => "false"
  | .jnum n => toString n
  | .jstr s => "\"" ++ escapeJson s ++ "\""
  | .jarr xs => "[" ++ dumpsArr xs ++ "]"
  | .jobj fs => "\x7b" ++ dumpsObj fs ++ "\x7d"

/-- Serialisation of the elements of a JSON array, comma separated. -/
def dumpsArr : List JsonVal → String
  | [] => ""
  | [x] => dumps x
  | x :: y :: xs => dumps x ++ ", " ++ dumpsArr (y :: xs)

/-- Serialisation of the fields of a JSON object, comma separated. -/
def dumpsObj : List (String × JsonVal) → String
  | [] => ""
  | [(k, v)] => "\"" ++ escapeJson k ++ "\": " ++ dumps v
  | (k, v) :: q :: fs =>
      "\"" ++ escapeJson k ++ "\": " ++ dumps v ++ ", " ++ dumpsObj (q :: fs)

end

mutual

/-- Python `repr` of a JSON-shaped value (used by `%s` inside containers). -/
def pyRepr : JsonVal → String
  | .jnull => "None"
  | .jbool true => "True"
  | .jbool false => "False"
  | .jnum n => toString n
  | .jstr s => "\x27" ++ s ++ "\x27"
  | .jarr xs => "[" ++ pyReprArr xs ++ "]"
  | .jobj fs => "\x7b" ++ pyReprObj fs ++ "\x7d"

/-- Python `repr` of the elements of a list, comma separated. -/
def pyReprArr : List JsonVal → String
  | [] => ""
  | [x] => pyRepr x
  | x :: y :: xs => pyRepr x ++ ", " ++ pyReprArr (y :: xs)

/-- Python `repr` of the items of a dict, comma separated. -/
def pyReprObj : List (String × JsonVal) → String
  | [] => ""
  | [(k, v)] => "\x27" ++ k ++ "\x27: " ++ pyRepr v
  | (k, v) :: q :: fs =>
      "\x27" ++ k ++ "\x27: " ++ pyRepr v ++ ", " ++ pyReprObj (q :: fs)

end

/-- Python `str` of a JSON-shaped value (the `%s` conversion). -/
def pyStr : JsonVal → String
  | .jstr s => s
  | v => pyRepr v

/-- A URL in split form: the five components of stdlib `urlsplit`. -/
structure SplitURL : Type where
  scheme : String
  netloc : String
  path : String
  query : String
  fragment : String
deriving DecidableEq

/-- Model of stdlib `urlunsplit`, reassembling the five components. -/
def urlunsplit (u : SplitURL) : String :=
  let url0 := u.path
  let url1 :=
    if u.netloc != "" || (url0 != "" && pyStartsWith url0 "//") then
      "//" ++ u.netloc ++
        (if url0 != "" && !(pyStartsWith url0 "/") then "/" ++ url0 else url0)
    else url0
  let url2 := if u.scheme != "" then u.scheme ++ ":" ++ url1 else url1
  let url3 := if u.query != "" then url2 ++ "?" ++ u.query else url2
  if u.fragment != "" then url3 ++ "#" ++ u.fragment else url3

/-- One URL path segment as accepted by `call` (stringified with `str`). -/
inductive Segment : Type
  | s : String → Segment
  | i : Int → Segment
deriving DecidableEq

/-- Python `str(x)` for a segment. -/
def segStr : Segment → String
  | .s v => v
  | .i n => toString n

/-- One step of `posixpath.join`: Python 2.7 source of `join`, loop body. -/
def posixJoinOne (path b : String) : String :=
  if pyStartsWith b "/" then b
  else if path == "" || pyEndsWith path "/" then path ++ b
  else path ++ "/" ++ b

/-- Model of `posixpath.join(a, *p)`. -/
def posixJoin (a : String) (ps : List String) : String :=
  ps.foldl posixJoinOne a

/-- `RestClient._url_join` on split components: default an empty base path
to "/", then join the stringified segments with posixpath semantics; the
other four components are passed through to `urlunsplit` unchanged. -/
def url_join (base : SplitURL) (args : List Segment) : SplitURL :=
  let path := if base.path.length == 0 then "/" else base.path
  ⟨base.scheme, base.netloc, posixJoin path (args.map segStr),
   base.query, base.fragment⟩

/-- The URL string returned by `RestClient._url_join`. -/
def url_join_str (base : SplitURL) (args : List Segment) : String :=
  urlunsplit (url_join base args)

/-- Formalisation of the words of the specification: appending segments in
order as literal path components of a path (a separator "/" is inserted
unless the path already ends with one). -/
def specAppendPath (p : String) (ss : List String) : String :=
  ss.foldl (fun acc x => if pyEndsWith acc "/" then acc ++ x else acc ++ "/" ++ x) p

/-- Python exceptions that the client code can raise. -/
inductive PyExc : Type
  | typeError : String → PyExc
  | requestException : String → String → PyExc
  | ioError : String → PyExc
  | httpError : PyExc
  | keyError : String → PyExc
  | attributeError : String → PyExc

/-- Outcome of running a piece of Python code: a value, or a raised
exception propagating to the caller. -/
inductive PyResult (α : Type) : Type
  | ok : α → PyResult α
  | raised : PyExc → PyResult α

/-- Is the outcome a raised TypeError? -/
def isTypeErrorResult {α : Type} : PyResult α → Bool
  | .raised (.typeError _) => true
  | _ => false

/-- Model of the external `requests.Response`, restricted to the attributes
the client consults.  `json` is the result of the `.json()` accessor:
`none` models a body that fails to parse (the accessor raises), `some v`
models a successful parse yielding `v`.  `is_redirect` is the library flag,
kept abstract and independent of the other fields. -/
structure Response : Type where
  status_code : Nat
  reason : String
  headers : Dict String
  content : String
  is_redirect : Bool
  json : Option JsonVal

/-- ASCII lower-casing of one character (header names are ASCII). -/
def lowerChar (c : Char) : Char :=
  if 'A' ≤ c ∧ c ≤ 'Z' then Char.ofNat (c.toNat + 32) else c

/-- ASCII lower-casing of a string. -/
def lowerStr (s : String) : String :=
  ⟨s.data.map lowerChar⟩

/-- Case-insensitive header lookup (requests `CaseInsensitiveDict`).
A missing key raises KeyError at the call site, hence the Option. -/
def hGet : Dict String → String → Option String
  | [], _ => none
  | p :: ps, k => if lowerStr p.1 = lowerStr k then some p.2 else hGet ps k

/-- Requests contract: `raise_for_status` raises HTTPError exactly for
4xx client errors and 5xx server errors. -/
def isHTTPErrorStatus (code : Nat) : Bool :=
  (400 ≤ code && code < 500) || (500 ≤ code && code < 600)

/-- One structured error-log line, mirroring the parameters of the
`errorlog` function (type, error, method, url, detail, status, body). -/
structure LogEntry : Type where
  type : String
  error : String
  method : String
  url : String
  detail : String
  status : Option Nat
  body : Option String

/-- The formatted line produced by `errorlog`. -/
def errorlogLine (e : LogEntry) : String :=
  let line := "RESTClient type=" ++ e.type ++ " error=" ++ e.error ++
    " detail=\"" ++ e.detail ++ "\" req=\"" ++ e.method ++ " " ++ e.url ++ "\""
  let line := match e.status with
    | some st => line ++ " status=" ++ toString st
    | none => line
  match e.body with
  | some b => line ++ "\n" ++ b
  | none => line

/-- `error_from_response`: classify client/server error by status code and
extract the error payload.  The try/except around `resp.json()` replaces a
parse failure by an empty dict; the subsequent `payload.get` calls run in
the `finally` block and raise AttributeError when the parsed payload is not
a dict (lists, strings, numbers have no `get`). -/
def error_from_response (resp : Response) :
    PyResult (String × JsonVal × JsonVal) :=
  let error_type := if resp.status_code < 500 then "client" else "server"
  let payload : JsonVal :=
    match resp.json with
    | some v => v
    | none => .jobj []
  match payload with
  | .jobj fields =>
      .ok (error_type, (dget fields "error").getD (.jstr "-"),
           (dget fields "message").getD (.jstr "-"))
  | _ => .raised (.attributeError "get")

/-- The `segments` argument of `call` as a Python value: a tuple, a list,
or one of the scalar types the precondition rejects. -/
inductive SegArg : Type
  | tup : List Segment → SegArg
  | lst : List Segment → SegArg
  | pystr : String → SegArg
  | pyint : Int → SegArg
  | pynone : SegArg

/-- `isinstance(segments, tuple) or isinstance(segments, list)`. -/
def SegArg.isSeq : SegArg → Bool
  | .tup _ => true
  | .lst _ => true
  | _ => false

/-- The elements of a tuple or list argument (junk on scalars, which are
rejected before the elements are consulted). -/
def SegArg.elems : SegArg → List Segment
  | .tup l => l
  | .lst l => l
  | _ => []

/-- Per-call or default request options: a Python dict of keyword
arguments with JSON-shaped values. -/
def Options : Type := Dict JsonVal

/-- Outcome of one invocation of the underlying `session.request`. -/
inductive TransportOutcome : Type
  | raise : String → String → TransportOutcome
  | response : Response → TransportOutcome

/-- The underlying transport: `session.request(method, url, **opts)`. -/
def Transport : Type := String → String → Options → TransportOutcome

/-- Client state: the configuration fields of `RestClient` (the session
object, auth and user agent live in the external session and are not
consulted by the claims). -/
structure RestClient : Type where
  base_url : SplitURL
  default_options : Options
  requests_legacy : Bool

/-- `requests.__version__[0] == '1'` (detection of requests 1.x). -/
def versionIsLegacy (v : String) : Bool :=
  match v.data with
  | [] => false
  | c :: _ => c == '1'

/-- `RestClient.__init__`: defaults start from `allow_redirects = False`
and are updated with the caller options; the legacy flag is sniffed from
the requests version string. -/
def RestClient.init (base_url : SplitURL) (options : Option Options)
    (requestsVersion : String) : RestClient :=
  { base_url := base_url,
    default_options :=
      match options with
      | none => [("allow_redirects", .jbool false)]
      | some o => dupdate [("allow_redirects", .jbool false)] o,
    requests_legacy := versionIsLegacy requestsVersion }

/-- The requests-1.x compatibility shim of `call`: when a `json` option is
present, pop it, serialise it into the `data` option, and inject a
Content-Type header into the (defaulted) `headers` option.  A `headers`
option that is not a dict has no `update` method: AttributeError. -/
def legacyTransform (kwargs : Options) : PyResult Options :=
  match dget kwargs "json" with
  | none => .ok kwargs
  | some payload =>
    match dget (dset (dpop kwargs "json") "data" (.jstr (dumps payload))) "headers" with
    | none =>
        .ok (dset (dset (dpop kwargs "json") "data" (.jstr (dumps payload)))
          "headers" (.jobj [("Content-Type", .jstr "application/json")]))
    | some (.jobj hs) =>
        .ok (dset (dset (dpop kwargs "json") "data" (.jstr (dumps payload)))
          "headers" (.jobj (dset hs "Content-Type" (.jstr "application/json"))))
    | some _ => .raised (.attributeError "update")

/-- The legacy shim is applied only when `self.requests_legacy` holds. -/
def applyLegacy (c : RestClient) (kwargs : Options) : PyResult Options :=
  if c.requests_legacy then legacyTransform kwargs else .ok kwargs

/-- Everything `call` did: its outcome, the error-log lines produced, the
transport invocations performed, and the client state afterwards. -/
structure CallRecord : Type where
  result : PyResult Response
  logs : List LogEntry
  transportCalls : List (String × String × Options)
  finalClient : RestClient

/-- The part of `call` after the transport was invoked: redirect check via
`resp.is_redirect` (reading `resp.headers[location]` first, which raises
KeyError when absent), then `raise_for_status` with classification and
logging, else return the response unchanged. -/
def handleOutcome (c : RestClient) (method url : String) (opts : Options)
    (outcome : TransportOutcome) : CallRecord :=
  match outcome with
  | .raise cls msg =>
      ⟨.raised (.requestException cls msg),
       [⟨"failure", cls, method, url, msg, none, none⟩],
       [(method, url, opts)], c⟩
  | .response resp =>
      if resp.is_redirect then
        match hGet resp.headers "location" with
        | none => ⟨.raised (.keyError "location"), [], [(method, url, opts)], c⟩
        | some loc =>
            ⟨.raised (.ioError
                ("Redirect(" ++ toString resp.status_code ++ ") " ++ resp.reason)),
             [⟨"redirect", "redirect", method, url, loc,
               some resp.status_code, some resp.content⟩],
             [(method, url, opts)], c⟩
      else if isHTTPErrorStatus resp.status_code then
        match error_from_response resp with
        | .raised e => ⟨.raised e, [], [(method, url, opts)], c⟩
        | .ok (t, err, msg) =>
            ⟨.raised .httpError,
             [⟨t, pyStr err, method, url, pyStr msg,
               some resp.status_code, some resp.content⟩],
             [(method, url, opts)], c⟩
      else ⟨.ok resp, [], [(method, url, opts)], c⟩

/-- Body of `call` once the segments passed the type check: join the URL,
apply the legacy shim, merge a copy of the default options with the
per-call options, invoke the transport once, and handle the outcome. -/
def callSegs (c : RestClient) (transport : Transport) (method : String)
    (segs : List Segment) (kwargs : Options) : CallRecord :=
  let url := url_join_str c.base_url segs
  match applyLegacy c kwargs with
  | .raised e => ⟨.raised e, [], [], c⟩
  | .ok kwargs2 =>
      let opts := dupdate c.default_options kwargs2
      handleOutcome c method url opts (transport method url opts)

/-- `RestClient.call`: reject a non-tuple, non-list segments argument with
TypeError before any further work, else proceed. -/
def RestClient.call (c : RestClient) (transport : Transport) (method : String)
    (segments : SegArg) (kwargs : Options) : CallRecord :=
  if segments.isSeq then callSegs c transport method segments.elems kwargs
  else ⟨.raised (.typeError "segments argument must be a tuple or a list"),
        [], [], c⟩

/-- The headers option viewed as a dict: absent counts as the empty dict
that `setdefault` would install, a non-dict value has no `update`. -/
def headersDictOf (kwargs : Options) : Option (Dict JsonVal) :=
  match dget kwargs "headers" with
  | none => some []
  | some (.jobj hs) => some hs
  | some _ => none

/-- Base URL of the repository test-suite, http://host/base, split. -/
def baseEx : SplitURL := ⟨"http", "host", "/base", "", ""⟩

/-- A client over requests 2.x (legacy flag unset) with default options. -/
def clientEx : RestClient :=
  ⟨baseEx, [("allow_redirects", JsonVal.jbool false)], false⟩

/-- The same client with the legacy flag forced (requests 1.x). -/
def clientLegacyEx : RestClient :=
  ⟨baseEx, [("allow_redirects", JsonVal.jbool false)], true⟩

/-- A plain 200 response. -/
def resp200 : Response := ⟨200, "OK", [], "MyBodyIsACage", false, none⟩

/-- A redirect-flagged response carrying no Location header. -/
def respRedirNoLoc : Response := ⟨302, "Found", [], "", true, none⟩

/-- A redirect-flagged 307 response without a Location header. -/
def respRedirNoLoc307 : Response :=
  ⟨307, "Temporary Redirect", [("X-Extra", "y")], "B", true, none⟩

/-- A redirect-flagged response with a Location header. -/
def respRedirLoc : Response :=
  ⟨301, "Moved Permanently", [("Location", "http://go-away.com")], "BODY",
   true, none⟩

/-- A 400 response with a JSON error payload. -/
def resp400 : Response :=
  ⟨400, "Bad Request", [], "ERRBODY", false,
   some (.jobj [("error", .jstr "ERROR"), ("message", .jstr "MSG")])⟩

/-- A 500 response whose body parses to the JSON array [1, 2, 3]. -/
def respArrayBody : Response :=
  ⟨500, "Internal Server Error", [], "[1, 2, 3]", false,
   some (.jarr [.jnum 1, .jnum 2, .jnum 3])⟩

/-- A transport answering every request with the given response. -/
def transportOf (r : Response) : Transport := fun _ _ _ => .response r

/-- A transport raising a ConnectionError on every request. -/
def transportFail : Transport := fun _ _ _ => .raise "ConnectionError" "boom"

/-- Per-call options of the legacy witness: a JSON payload and a timeout. -/
def legacyKwargsEx : Options :=
  [("json", JsonVal.jobj [("a", JsonVal.jnum 1)]), ("timeout", JsonVal.jnum 3)]

/-- The options after the legacy shim transformed `legacyKwargsEx`. -/
def legacyKwargs2Ex : Options :=
  [("timeout", JsonVal.jnum 3),
   ("data", JsonVal.jstr "\x7b\"a\": 1\x7d"),
   ("headers", JsonVal.jobj [("Content-Type", JsonVal.jstr "application/json")])]

theorem dget_dset_self {α : Type} (d : Dict α) (k : String) (v : α) :
    dget (dset d k v) k = some v := by
  induction d with
  | nil => simp [dset, dget]
  | cons p ps ih =>
    by_cases h : p.1 = k
    · simp [dset, h, dget]
    · simp [dset, h, dget, ih]

theorem dget_dset_ne {α : Type} (d : Dict α) (k k' : String) (v : α)
    (h : k' ≠ k) : dget (dset d k v) k' = dget d k' := by
  induction d with
  | nil =>
    have h2 : ¬ (k = k') := fun hh => h hh.symm
    simp [dset, dget, h2]
  | cons p ps ih =>
    by_cases hp : p.1 = k
    · subst hp
      have h2 : ¬ (p.1 = k') := fun hh => h (hh.symm.trans rfl) |>.elim
      simp [dset, dget, h2]
    · simp [dset, hp, dget, ih]

theorem dget_eq_none_of_not_mem {α : Type} (d : Dict α) (k : String)
    (h : k ∉ d.map Prod.fst) : dget d k = none := by
  induction d with
  | nil => rfl
  | cons p ps ih =>
    rw [List.map_cons, List.mem_cons] at h
    push_neg at h
    have h1 : ¬ (p.1 = k) := fun hh => h.1 hh.symm
    simp [dget, h1, ih h.2]

theorem dget_dpop_ne {α : Type} (d : Dict α) (k k' : String) (h : k' ≠ k) :
    dget (dpop d k) k' = dget d k' := by
  induction d with
  | nil => rfl
  | cons p ps ih =>
    by_cases hp : p.1 = k
    · have h2 : ¬ (p.1 = k') := fun hh => h (hh.symm.trans hp)
      have h3 : ¬ (k = k') := fun hh => h hh.symm
      simp [dpop, hp, dget, h2, h3]
    · simp [dpop, hp, dget, ih]

theorem dget_dpop_self {α : Type} (d : Dict α) (k : String) (h : WfD d) :
    dget (dpop d k) k = none := by
  induction d with
  | nil => rfl
  | cons p ps ih =>
    rw [WfD, List.map_cons, List.nodup_cons] at h
    by_cases hp : p.1 = k
    · subst hp
      simp [dpop]
      exact dget_eq_none_of_not_mem ps p.1 h.1
    · simp [dpop, hp, dget, ih h.2]

theorem dget_dupdate_none {α : Type} (e d : Dict α) (k : String)
    (h : dget e k = none) : dget (dupdate d e) k = dget d k := by
  induction e generalizing d with
  | nil => rfl
  | cons p ps ih =>
    rw [dget] at h
    by_cases hp : p.1 = k
    · simp [hp] at h
    · rw [if_neg hp] at h
      show dget (dupdate (dset d p.1 p.2) ps) k = dget d k
      rw [ih (dset d p.1 p.2) h, dget_dset_ne _ _ _ _ (fun hh => hp hh.symm)]

theorem dget_dupdate_some {α : Type} (e d : Dict α) (k : String) (v : α)
    (hw : WfD e) (h : dget e k = some v) : dget (dupdate d e) k = some v := by
  induction e generalizing d with
  | nil => cases h
  | cons p ps ih =>
    rw [WfD, List.map_cons, List.nodup_cons] at hw
    rw [dget] at h
    by_cases hp : p.1 = k
    · rw [if_pos hp] at h
      have hnone : dget ps k = none := by
        apply dget_eq_none_of_not_mem
        rw [← hp]; exact hw.1
      show dget (dupdate (dset d p.1 p.2) ps) k = some v
      rw [dget_dupdate_none ps _ _ hnone, hp, dget_dset_self]
      rw [Option.some_inj] at h ⊢
      exact h
    · rw [if_neg hp] at h
      exact ih _ hw.2 h

theorem dmem_dset_left {α : Type} (d : Dict α) (k k0 : String) (v : α)
    (h : dmem d k = true) : dmem (dset d k0 v) k = true := by
  by_cases hk : k = k0
  · subst hk; rw [dmem, dget_dset_self]; rfl
  · rw [dmem, dget_dset_ne _ _ _ _ hk]; exact h

theorem dmem_dupdate_left {α : Type} (e d : Dict α) (k : String)
    (h : dmem d k = true) : dmem (dupdate d e) k = true := by
  induction e generalizing d with
  | nil => exact h
  | cons p ps ih =>
    show dmem (dupdate (dset d p.1 p.2) ps) k = true
    exact ih _ (dmem_dset_left d k p.1 p.2 h)

theorem append_data_ne_nil (a b : String) (ha : a.data ≠ []) :
    (a ++ b).data ≠ [] := by
  intro h
  rw [String.data_append] at h
  exact ha (List.append_eq_nil.mp h).1

theorem posixJoinOne_no_slash (p b : String) (hp : p.data ≠ [])
    (hb : pyStartsWith b "/" = false) :
    posixJoinOne p b = if pyEndsWith p "/" then p ++ b else p ++ "/" ++ b := by
  have hpne : p ≠ "" := by
    intro h; apply hp; rw [h]
  have hbeq : (p == "") = false := beq_eq_false_iff_ne.mpr hpne
  simp only [posixJoinOne, hb, hbeq, Bool.false_or, Bool.false_eq_true, if_false]

theorem posixJoin_eq_specAppendPath (ss : List String) (p : String)
    (hp : p.data ≠ []) (hs : ∀ s ∈ ss, pyStartsWith s "/" = false) :
    posixJoin p ss = specAppendPath p ss := by
  induction ss generalizing p with
  | nil => rfl
  | cons s ss ih =>
    have hs0 : pyStartsWith s "/" = false := hs s (List.mem_cons_self _ _)
    have hrest : ∀ x ∈ ss, pyStartsWith x "/" = false :=
      fun x hx => hs x (List.mem_cons_of_mem _ hx)
    show posixJoin (posixJoinOne p s) ss =
      specAppendPath (if pyEndsWith p "/" then p ++ s else p ++ "/" ++ s) ss
    rw [posixJoinOne_no_slash p s hp hs0]
    apply ih
    · by_cases he : pyEndsWith p "/"
      · rw [if_pos he]; exact append_data_ne_nil p s hp
      · rw [if_neg he]; exact append_data_ne_nil _ s (append_data_ne_nil p "/" hp)
    · exact hrest

theorem call_reduces (c : RestClient) (transport : Transport) (method : String)
    (sa : SegArg) (kwargs kw2 : Options) (hsa : sa.isSeq = true)
    (hkw : applyLegacy c kwargs = .ok kw2) :
    RestClient.call c transport method sa kwargs =
      handleOutcome c method (url_join_str c.base_url sa.elems)
        (dupdate c.default_options kw2)
        (transport method (url_join_str c.base_url sa.elems)
          (dupdate c.default_options kw2)) := by
  cases sa with
  | tup l => rw [RestClient.call, if_pos hsa, callSegs, hkw]
  | lst l => rw [RestClient.call, if_pos hsa, callSegs, hkw]
  | pystr s => exact absurd hsa (by simp [SegArg.isSeq])
  | pyint n => exact absurd hsa (by simp [SegArg.isSeq])
  | pynone => exact absurd hsa (by simp [SegArg.isSeq])

theorem call_raises_type_error (c : RestClient) (transport : Transport)
    (method : String) (sa : SegArg) (kwargs : Options) (hsa : sa.isSeq = false) :
    RestClient.call c transport method sa kwargs =
      ⟨.raised (.typeError "segments argument must be a tuple or a list"),
       [], [], c⟩ := by
  rw [RestClient.call, if_neg (by rw [hsa]; exact Bool.false_ne_true)]

theorem call_legacy_raises (c : RestClient) (transport : Transport)
    (method : String) (sa : SegArg) (kwargs : Options) (e : PyExc)
    (hsa : sa.isSeq = true) (hkw : applyLegacy c kwargs = .raised e) :
    RestClient.call c transport method sa kwargs = ⟨.raised e, [], [], c⟩ := by
  cases sa with
  | tup l => rw [RestClient.call, if_pos hsa, callSegs, hkw]
  | lst l => rw [RestClient.call, if_pos hsa, callSegs, hkw]
  | pystr s => exact absurd hsa (by simp [SegArg.isSeq])
  | pyint n => exact absurd hsa (by simp [SegArg.isSeq])
  | pynone => exact absurd hsa (by simp [SegArg.isSeq])

theorem handleOutcome_finalClient (c : RestClient) (m u : String)
    (o : Options) (out : TransportOutcome) :
    (handleOutcome c m u o out).finalClient = c := by
  cases out with
  | raise cls msg => rfl
  | response resp =>
    rw [handleOutcome]
    by_cases hr : resp.is_redirect
    · rw [if_pos hr]
      cases hGet resp.headers "location" <;> rfl
    · rw [if_neg hr]
      by_cases hs : isHTTPErrorStatus resp.status_code
      · rw [if_pos hs]
        cases hefr : error_from_response resp with
        | raised e => rfl
        | ok trip => obtain ⟨t, e2, m2⟩ := trip; rfl
      · rw [if_neg hs]

theorem handleOutcome_transportCalls (c : RestClient) (m u : String)
    (o : Options) (out : TransportOutcome) :
    (handleOutcome c m u o out).transportCalls = [(m, u, o)] := by
  cases out with
  | raise cls msg => rfl
  | response resp =>
    rw [handleOutcome]
    by_cases hr : resp.is_redirect
    · rw [if_pos hr]
      cases hGet resp.headers "location" <;> rfl
    · rw [if_neg hr]
      by_cases hs : isHTTPErrorStatus resp.status_code
      · rw [if_pos hs]
        cases hefr : error_from_response resp with
        | raised e => rfl
        | ok trip => obtain ⟨t, e2, m2⟩ := trip; rfl
      · rw [if_neg hs]

theorem error_from_response_raised (r : Response) (e : PyExc)
    (h : error_from_response r = .raised e) : e = .attributeError "get" := by
  rw [error_from_response] at h
  split at h
  · cases h
  · injection h with h2
    exact h2.symm

theorem legacyTransform_raised (kwargs : Options) (e : PyExc)
    (h : legacyTransform kwargs = .raised e) : e = .attributeError "update" := by
  simp only [legacyTransform] at h
  split at h
  · cases h
  · split at h
    · cases h
    · cases h
    · injection h with h2
      exact h2.symm

theorem applyLegacy_raised (c : RestClient) (kwargs : Options) (e : PyExc)
    (h : applyLegacy c kwargs = .raised e) : e = .attributeError "update" := by
  rw [applyLegacy] at h
  by_cases hl : c.requests_legacy
  · rw [if_pos hl] at h
    exact legacyTransform_raised kwargs e h
  · rw [if_neg hl] at h
    cases h

theorem handleOutcome_result_no_typeError (c : RestClient) (m u : String)
    (o : Options) (out : TransportOutcome) :
    isTypeErrorResult (handleOutcome c m u o out).result = false := by
  cases out with
  | raise cls msg => rfl
  | response resp =>
    rw [handleOutcome]
    by_cases hr : resp.is_redirect
    · rw [if_pos hr]
      cases hGet resp.headers "location" <;> rfl
    · rw [if_neg hr]
      by_cases hs : isHTTPErrorStatus resp.status_code
      · rw [if_pos hs]
        cases hefr : error_from_response resp with
        | raised e =>
          rw [error_from_response_raised resp e hefr]
          rfl
        | ok trip => obtain ⟨t, e2, m2⟩ := trip; rfl
      · rw [if_neg hs]
        rfl

/-- C1 counterexample: with base http://host/base, the segment "/etc" is
not appended to the base path as the claim states for every segment
sequence; posixpath.join restarts from the absolute segment and the base
path is discarded. -/
theorem C1_absolute_segment_counterexample :
    (url_join baseEx [Segment.s "/etc"]).path = "/etc"
    ∧ specAppendPath "/base" [segStr (Segment.s "/etc")] = "/base//etc"
    ∧ pyStartsWith (url_join baseEx [Segment.s "/etc"]).path "/base" = false
    ∧ (url_join baseEx [Segment.s "/etc"]).path ≠ "/base//etc" :=
  ⟨rfl, rfl, rfl, by decide⟩

/-- C1 (amended): for every base URL in split form and every segment
sequence none of whose string forms begins with "/", the composed URL
preserves scheme, host, query and fragment unchanged, defaults an empty
base path to "/", and appends each stringified segment in order as a
literal path component of the base path.  The amendment excludes segments
whose string form begins with "/" (posixpath.join restarts from such a
segment, see the counterexample). -/
theorem C1_url_join_appends_amended (base : SplitURL) (segs : List Segment)
    (h : ∀ s ∈ segs, pyStartsWith (segStr s) "/" = false) :
    url_join base segs =
      ⟨base.scheme, base.netloc,
       specAppendPath (if base.path.length == 0 then "/" else base.path)
         (segs.map segStr),
       base.query, base.fragment⟩ := by
  simp only [url_join]
  have hne : (if base.path.length == 0 then "/" else base.path).data ≠ [] := by
    by_cases hb : base.path.length == 0
    · rw [if_pos hb]; intro hh; cases hh
    · rw [if_neg hb]
      intro hh
      apply hb
      have hlen : base.path.length = 0 := by
        show base.path.data.length = 0
        rw [hh]
        rfl
      rw [hlen]
      rfl
  have hm : ∀ x ∈ segs.map segStr, pyStartsWith x "/" = false := by
    intro x hx
    obtain ⟨s, hs, rfl⟩ := List.mem_map.mp hx
    exact h s hs
  rw [posixJoin_eq_specAppendPath (segs.map segStr) _ hne hm]

/-- C1 witness at the example of the spec: base http://host/base with
segments ["elements", 1]. -/
theorem C1_url_join_witness :
    url_join baseEx [Segment.s "elements", Segment.i 1] =
      ⟨"http", "host", "/base/elements/1", "", ""⟩ :=
  (C1_url_join_appends_amended baseEx [Segment.s "elements", Segment.i 1]
    (by decide)).trans rfl

/-- C2 counterexample: a redirect-flagged response without a Location
header makes call raise KeyError with no redirect log line at all, not
the logged I/O-style error the claim promises for every redirect
response. -/
theorem C2_redirect_without_location_counterexample :
    (RestClient.call clientEx (transportOf respRedirNoLoc) "GET"
        (SegArg.tup []) []).result = PyResult.raised (PyExc.keyError "location")
    ∧ (RestClient.call clientEx (transportOf respRedirNoLoc) "GET"
        (SegArg.tup []) []).logs = [] :=
  ⟨rfl, rfl⟩

/-- C2 (amended): for every response whose redirect flag is set and whose
headers carry a Location key, call logs exactly one error line with
category redirect carrying the Location header as detail together with the
status code and the body, and raises an I/O-style error with the status
code and reason phrase, regardless of the status code value; the response
is never returned and the transport is invoked exactly once (no retry).
The amendment restricts the claim to redirect responses that carry a
Location header (without one, call raises KeyError instead, see the
counterexample). -/
theorem C2_redirect_failure_amended (c : RestClient) (transport : Transport)
    (method : String) (sa : SegArg) (kwargs kw2 : Options) (resp : Response)
    (loc : String) (hsa : sa.isSeq = true)
    (hkw : applyLegacy c kwargs = .ok kw2)
    (htr : transport method (url_join_str c.base_url sa.elems)
        (dupdate c.default_options kw2) = .response resp)
    (hred : resp.is_redirect = true)
    (hloc : hGet resp.headers "location" = some loc) :
    RestClient.call c transport method sa kwargs =
      ⟨.raised (.ioError
          ("Redirect(" ++ toString resp.status_code ++ ") " ++ resp.reason)),
       [⟨"redirect", "redirect", method, url_join_str c.base_url sa.elems, loc,
         some resp.status_code, some resp.content⟩],
       [(method, url_join_str c.base_url sa.elems, dupdate c.default_options kw2)],
       c⟩ := by
  rw [call_reduces c transport method sa kwargs kw2 hsa hkw, htr, handleOutcome,
    if_pos hred, hloc]

/-- C2 witness: a 301 redirect response with a Location header, through a
non-legacy client with empty per-call options. -/
theorem C2_redirect_failure_witness :
    RestClient.call clientEx (transportOf respRedirLoc) "GET" (SegArg.tup []) [] =
      ⟨PyResult.raised (PyExc.ioError "Redirect(301) Moved Permanently"),
       [⟨"redirect", "redirect", "GET", "http://host/base", "http://go-away.com",
         some 301, some "BODY"⟩],
       [("GET", "http://host/base", [("allow_redirects", JsonVal.jbool false)])],
       clientEx⟩ :=
  (C2_redirect_failure_amended clientEx (transportOf respRedirLoc) "GET"
    (SegArg.tup []) [] [] respRedirLoc "http://go-away.com"
    rfl rfl rfl rfl rfl).trans rfl

/-- C3: for every non-redirect response whose status signals an HTTP error
(4xx/5xx) and from which error_from_response returns a classification, the
classification is client exactly when the status code is below 500 and
server exactly when it is at least 500, and call re-raises the HTTP error
after logging one line with that classification, the extracted error and
message, the status code and the body. -/
theorem C3_error_classification (c : RestClient) (transport : Transport)
    (method : String) (sa : SegArg) (kwargs kw2 : Options) (resp : Response)
    (t : String) (e m : JsonVal) (hsa : sa.isSeq = true)
    (hkw : applyLegacy c kwargs = .ok kw2)
    (htr : transport method (url_join_str c.base_url sa.elems)
        (dupdate c.default_options kw2) = .response resp)
    (hred : resp.is_redirect = false)
    (herr : isHTTPErrorStatus resp.status_code = true)
    (hefr : error_from_response resp = .ok (t, e, m)) :
    (t = "client" ↔ resp.status_code < 500)
    ∧ (t = "server" ↔ 500 ≤ resp.status_code)
    ∧ RestClient.call c transport method sa kwargs =
      ⟨.raised .httpError,
       [⟨t, pyStr e, method, url_join_str c.base_url sa.elems, pyStr m,
         some resp.status_code, some resp.content⟩],
       [(method, url_join_str c.base_url sa.elems, dupdate c.default_options kw2)],
       c⟩ := by
  have ht : t = if resp.status_code < 500 then "client" else "server" := by
    rw [error_from_response] at hefr
    split at hefr
    · injection hefr with h2
      exact (congrArg (fun x => x.1) h2).symm
    · cases hefr
  have hcs : ("client" : String) ≠ "server" := by decide
  refine ⟨?_, ?_, ?_⟩
  · rw [ht]
    by_cases hc : resp.status_code < 500
    · rw [if_pos hc]
      exact ⟨fun _ => hc, fun _ => rfl⟩
    · rw [if_neg hc]
      exact ⟨fun hh => absurd hh.symm hcs, fun hh => absurd hh hc⟩
  · rw [ht]
    by_cases hc : resp.status_code < 500
    · rw [if_pos hc]
      exact ⟨fun hh => absurd hh hcs, fun hh => absurd hh (by omega)⟩
    · rw [if_neg hc]
      exact ⟨fun _ => by omega, fun _ => rfl⟩
  · rw [call_reduces c transport method sa kwargs kw2 hsa hkw, htr, handleOutcome,
      if_neg (by rw [hred]; exact Bool.false_ne_true), if_pos herr, hefr]

/-- C3 witness: a 400 response with payload error ERROR, message MSG. -/
theorem C3_error_classification_witness :
    RestClient.call clientEx (transportOf resp400) "GET" (SegArg.tup []) [] =
      ⟨PyResult.raised PyExc.httpError,
       [⟨"client", "ERROR", "GET", "http://host/base", "MSG",
         some 400, some "ERRBODY"⟩],
       [("GET", "http://host/base", [("allow_redirects", JsonVal.jbool false)])],
       clientEx⟩ :=
  ((C3_error_classification clientEx (transportOf resp400) "GET" (SegArg.tup [])
    [] [] resp400 "client" (JsonVal.jstr "ERROR") (JsonVal.jstr "MSG")
    rfl rfl rfl rfl rfl rfl).2.2).trans rfl

/-- C4: the claim that error_from_response never raises contradicts the
code: a body parsing to a JSON array (here [1, 2, 3] on a 500 response)
has no `get` attribute, so the extraction raises AttributeError and call
propagates it without any log line, instead of the placeholder values the
failsafe contract (and the docstring of the function) promise. -/
theorem C4_error_payload_not_failsafe :
    error_from_response respArrayBody
      = PyResult.raised (PyExc.attributeError "get")
    ∧ (RestClient.call clientEx (transportOf respArrayBody) "GET"
        (SegArg.tup []) []).result = PyResult.raised (PyExc.attributeError "get")
    ∧ (RestClient.call clientEx (transportOf respArrayBody) "GET"
        (SegArg.tup []) []).logs = [] :=
  ⟨rfl, rfl, rfl⟩

/-- C5: with the legacy flag set and a JSON payload among the per-call
options, the payload is removed from the json option, serialised to text
into the data option, and a Content-Type application/json header is
injected into the headers option, while every other per-call option is
unaltered; with the flag unset or no JSON payload present, the options
pass through unchanged. -/
theorem C5_legacy_json_shim (c : RestClient) (kwargs kw2 : Options) (j : JsonVal) :
    ((c.requests_legacy = false ∨ dget kwargs "json" = none) →
        applyLegacy c kwargs = .ok kwargs)
    ∧ (c.requests_legacy = true → WfD kwargs → dget kwargs "json" = some j →
        (headersDictOf kwargs).isSome = true →
        applyLegacy c kwargs = .ok kw2 →
        dget kw2 "json" = none
        ∧ dget kw2 "data" = some (.jstr (dumps j))
        ∧ (∃ hs, dget kw2 "headers" = some (.jobj hs)
            ∧ dget hs "Content-Type" = some (.jstr "application/json"))
        ∧ (∀ k, ¬ k = "json" → ¬ k = "data" → ¬ k = "headers" →
            dget kw2 k = dget kwargs k)) := by
  constructor
  · intro h
    rw [applyLegacy]
    cases h with
    | inl hf => rw [hf, if_neg Bool.false_ne_true]
    | inr hn =>
      by_cases hl : c.requests_legacy
      · rw [if_pos hl, legacyTransform, hn]
      · rw [if_neg hl]
  · intro hleg hwf hjson hhd hkw2
    rw [applyLegacy, if_pos hleg, legacyTransform, hjson] at hkw2
    dsimp only [] at hkw2
    have hh1 : dget (dset (dpop kwargs "json") "data" (.jstr (dumps j)))
        "headers" = dget kwargs "headers" := by
      rw [dget_dset_ne _ _ _ _ (by decide), dget_dpop_ne _ _ _ (by decide)]
    rw [hh1] at hkw2
    have hcore : ∀ (v : JsonVal),
        kw2 = dset (dset (dpop kwargs "json") "data" (.jstr (dumps j)))
          "headers" v →
        dget kw2 "json" = none
        ∧ dget kw2 "data" = some (.jstr (dumps j))
        ∧ dget kw2 "headers" = some v
        ∧ (∀ k, ¬ k = "json" → ¬ k = "data" → ¬ k = "headers" →
            dget kw2 k = dget kwargs k) := by
      intro v hv
      subst hv
      refine ⟨?_, ?_, ?_, ?_⟩
      · rw [dget_dset_ne _ _ _ _ (by decide), dget_dset_ne _ _ _ _ (by decide),
          dget_dpop_self _ _ hwf]
      · rw [dget_dset_ne _ _ _ _ (by decide), dget_dset_self]
      · rw [dget_dset_self]
      · intro k hkj hkd hkh
        rw [dget_dset_ne _ _ _ _ hkh, dget_dset_ne _ _ _ _ hkd,
          dget_dpop_ne _ _ _ hkj]
    cases hhead : dget kwargs "headers" with
    | none =>
      rw [hhead] at hkw2
      dsimp only [] at hkw2
      injection hkw2 with hkw2eq
      obtain ⟨h1, h2, h3, h4⟩ := hcore _ hkw2eq.symm
      exact ⟨h1, h2, ⟨_, h3, rfl⟩, h4⟩
    | some v =>
      rw [hhead] at hkw2
      cases v with
      | jobj hs =>
        dsimp only [] at hkw2
        injection hkw2 with hkw2eq
        obtain ⟨h1, h2, h3, h4⟩ := hcore _ hkw2eq.symm
        exact ⟨h1, h2, ⟨_, h3, dget_dset_self _ _ _⟩, h4⟩
      | jnull =>
        exfalso; rw [headersDictOf, hhead] at hhd; cases hhd
      | jbool b =>
        exfalso; rw [headersDictOf, hhead] at hhd; cases hhd
      | jnum n =>
        exfalso; rw [headersDictOf, hhead] at hhd; cases hhd
      | jstr s =>
        exfalso; rw [headersDictOf, hhead] at hhd; cases hhd
      | jarr xs =>
        exfalso; rw [headersDictOf, hhead] at hhd; cases hhd

/-- C5 witness: a legacy client with options json = an object and a
timeout; json disappears, data receives the serialised payload, the
timeout option is untouched. -/
theorem C5_legacy_json_shim_witness :
    dget legacyKwargs2Ex "json" = none
    ∧ dget legacyKwargs2Ex "data"
        = some (JsonVal.jstr (dumps (JsonVal.jobj [("a", JsonVal.jnum 1)])))
    ∧ dget legacyKwargs2Ex "timeout" = dget legacyKwargsEx "timeout" := by
  have h := (C5_legacy_json_shim clientLegacyEx legacyKwargsEx legacyKwargs2Ex
    (JsonVal.jobj [("a", JsonVal.jnum 1)])).2 rfl
    (by unfold WfD; decide) rfl rfl rfl
  exact ⟨h.1, h.2.1, h.2.2.2 "timeout" (by decide) (by decide) (by decide)⟩

/-- C6: the constructed default options always contain the
allow_redirects key; the transport receives exactly the default options
updated with the per-call options; on the merge the per-call value wins on
every key it binds; and absent an override of allow_redirects in both the
construction options and the per-call options, the effective options map
it to False. -/
theorem C6_option_merge :
    (∀ (b : SplitURL) (opts : Options) (ver : String),
        dmem (RestClient.init b (some opts) ver).default_options
          "allow_redirects" = true
        ∧ dmem (RestClient.init b none ver).default_options
          "allow_redirects" = true)
    ∧ (∀ (c : RestClient) (transport : Transport) (method : String)
          (sa : SegArg) (kwargs : Options),
        sa.isSeq = true → applyLegacy c kwargs = .ok kwargs →
        (RestClient.call c transport method sa kwargs).transportCalls
          = [(method, url_join_str c.base_url sa.elems,
              dupdate c.default_options kwargs)])
    ∧ (∀ (d e : Options) (k : String), WfD e →
        dget (dupdate d e) k =
          match dget e k with
          | some v => some v
          | none => dget d k)
    ∧ (∀ (b : SplitURL) (opts : Options) (ver : String) (kwargs : Options),
        dget opts "allow_redirects" = none →
        dget kwargs "allow_redirects" = none →
        dget (dupdate (RestClient.init b (some opts) ver).default_options
          kwargs) "allow_redirects" = some (JsonVal.jbool false)) := by
  refine ⟨?_, ?_, ?_, ?_⟩
  · intro b opts ver
    constructor
    · show dmem (dupdate [("allow_redirects", JsonVal.jbool false)] opts)
        "allow_redirects" = true
      exact dmem_dupdate_left opts _ _ rfl
    · rfl
  · intro c transport method sa kwargs hsa hkw
    rw [call_reduces c transport method sa kwargs kwargs hsa hkw]
    exact handleOutcome_transportCalls c method _ _ _
  · intro d e k hwf
    cases h : dget e k with
    | none => rw [dget_dupdate_none e d k h]
    | some v => rw [dget_dupdate_some e d k v hwf h]
  · intro b opts ver kwargs hopts hkw
    rw [dget_dupdate_none kwargs _ _ hkw]
    show dget (dupdate [("allow_redirects", JsonVal.jbool false)] opts)
      "allow_redirects" = some (JsonVal.jbool false)
    rw [dget_dupdate_none opts _ _ hopts]
    rfl

/-- C6 witness: default options of the test client merged with a timeout
option; the transport sees both, in default-then-per-call order. -/
theorem C6_option_merge_witness :
    (RestClient.call clientEx (transportOf resp200) "GET"
        (SegArg.tup [Segment.s "x"]) [("timeout", JsonVal.jnum 3)]).transportCalls
      = [("GET", "http://host/base/x",
          [("allow_redirects", JsonVal.jbool false), ("timeout", JsonVal.jnum 3)])] :=
  (C6_option_merge.2.1 clientEx (transportOf resp200) "GET"
    (SegArg.tup [Segment.s "x"]) [("timeout", JsonVal.jnum 3)] rfl rfl).trans rfl

/-- C7: a segments argument that is not a tuple or a list makes call raise
TypeError at once, with no log line and no transport invocation (so before
any URL is composed or network activity happens); a tuple or list argument
never produces a TypeError outcome. -/
theorem C7_segments_type_check (c : RestClient) (transport : Transport)
    (method : String) (sa : SegArg) (kwargs : Options) :
    (sa.isSeq = false →
      RestClient.call c transport method sa kwargs =
        ⟨.raised (.typeError "segments argument must be a tuple or a list"),
         [], [], c⟩)
    ∧ (sa.isSeq = true →
      isTypeErrorResult (RestClient.call c transport method sa kwargs).result
        = false) := by
  constructor
  · intro hsa
    exact call_raises_type_error c transport method sa kwargs hsa
  · intro hsa
    cases happ : applyLegacy c kwargs with
    | raised e =>
      rw [call_legacy_raises c transport method sa kwargs e hsa happ,
        applyLegacy_raised c kwargs e happ]
      rfl
    | ok kw2 =>
      rw [call_reduces c transport method sa kwargs kw2 hsa happ]
      exact handleOutcome_result_no_typeError c method _ _ _

/-- C7 witness: a bare string segments argument raises the TypeError with
no transport call; an empty tuple does not produce a TypeError. -/
theorem C7_segments_type_check_witness :
    RestClient.call clientEx (transportOf resp200) "GET"
        (SegArg.pystr "thisIsNotATupleOrList") [] =
      ⟨PyResult.raised
        (PyExc.typeError "segments argument must be a tuple or a list"),
       [], [], clientEx⟩
    ∧ isTypeErrorResult (RestClient.call clientEx (transportOf resp200) "GET"
        (SegArg.tup []) []).result = false :=
  ⟨(C7_segments_type_check clientEx (transportOf resp200) "GET"
      (SegArg.pystr "thisIsNotATupleOrList") []).1 rfl,
   (C7_segments_type_check clientEx (transportOf resp200) "GET"
      (SegArg.tup []) []).2 rfl⟩

/-- C8: a transport-level failure is logged exactly once with category
failure and the exception class name, and the identical original exception
is re-raised; the transport is invoked exactly once (no retry), nothing is
returned in its place. -/
theorem C8_transport_failure (c : RestClient) (transport : Transport)
    (method : String) (sa : SegArg) (kwargs kw2 : Options) (cls msg : String)
    (hsa : sa.isSeq = true) (hkw : applyLegacy c kwargs = .ok kw2)
    (htr : transport method (url_join_str c.base_url sa.elems)
        (dupdate c.default_options kw2) = .raise cls msg) :
    RestClient.call c transport method sa kwargs =
      ⟨.raised (.requestException cls msg),
       [⟨"failure", cls, method, url_join_str c.base_url sa.elems, msg,
         none, none⟩],
       [(method, url_join_str c.base_url sa.elems,
         dupdate c.default_options kw2)],
       c⟩ := by
  rw [call_reduces c transport method sa kwargs kw2 hsa hkw, htr]
  rfl

/-- C8 witness: a ConnectionError from the transport. -/
theorem C8_transport_failure_witness :
    RestClient.call clientEx transportFail "GET" (SegArg.tup []) [] =
      ⟨PyResult.raised (PyExc.requestException "ConnectionError" "boom"),
       [⟨"failure", "ConnectionError", "GET", "http://host/base", "boom",
         none, none⟩],
       [("GET", "http://host/base", [("allow_redirects", JsonVal.jbool false)])],
       clientEx⟩ :=
  (C8_transport_failure clientEx transportFail "GET" (SegArg.tup []) [] []
    "ConnectionError" "boom" rfl rfl rfl).trans rfl

/-- C9: every invocation of call, on every outcome path, leaves the client
configuration (base_url, default options, legacy flag) unchanged: the
option merge works on a copy of the defaults and nothing assigns to the
client fields. -/
theorem C9_client_config_unchanged (c : RestClient) (transport : Transport)
    (method : String) (sa : SegArg) (kwargs : Options) :
    (RestClient.call c transport method sa kwargs).finalClient = c
    ∧ (RestClient.call c transport method sa kwargs).finalClient.base_url
        = c.base_url
    ∧ (RestClient.call c transport method sa kwargs).finalClient.default_options
        = c.default_options
    ∧ (RestClient.call c transport method sa kwargs).finalClient.requests_legacy
        = c.requests_legacy := by
  have h : (RestClient.call c transport method sa kwargs).finalClient = c := by
    by_cases hsa : sa.isSeq = true
    · cases happ : applyLegacy c kwargs with
      | raised e => rw [call_legacy_raises c transport method sa kwargs e hsa happ]
      | ok kw2 =>
        rw [call_reduces c transport method sa kwargs kw2 hsa happ]
        exact handleOutcome_finalClient c method _ _ _
    · rw [Bool.not_eq_true] at hsa
      rw [call_raises_type_error c transport method sa kwargs hsa]
  exact ⟨h, by rw [h], by rw [h], by rw [h]⟩

/-- C10: on a redirect-flagged response, call reads the location header
before raising: when the header is absent the outcome is a KeyError with
no log line at all, and an I/O-style error outcome occurs only when the
header is present. -/
theorem C10_redirect_location_read (c : RestClient) (transport : Transport)
    (method : String) (sa : SegArg) (kwargs kw2 : Options) (resp : Response)
    (hsa : sa.isSeq = true) (hkw : applyLegacy c kwargs = .ok kw2)
    (htr : transport method (url_join_str c.base_url sa.elems)
        (dupdate c.default_options kw2) = .response resp)
    (hred : resp.is_redirect = true) :
    (hGet resp.headers "location" = none →
      (RestClient.call c transport method sa kwargs).result
          = .raised (.keyError "location")
      ∧ (RestClient.call c transport method sa kwargs).logs = [])
    ∧ (∀ s, (RestClient.call c transport method sa kwargs).result
          = .raised (.ioError s) →
        (hGet resp.headers "location").isSome = true) := by
  rw [call_reduces c transport method sa kwargs kw2 hsa hkw, htr, handleOutcome,
    if_pos hred]
  cases hloc : hGet resp.headers "location" with
  | none =>
    constructor
    · intro _
      exact ⟨rfl, rfl⟩
    · intro s hh
      injection hh with h2
      cases h2
  | some loc =>
    constructor
    · intro hh
      exact Option.noConfusion hh
    · intro s _
      rfl

/-- C10 witness: a 307 redirect response whose headers lack a Location
key: call ends in KeyError and logs nothing. -/
theorem C10_redirect_location_read_witness :
    (RestClient.call clientEx (transportOf respRedirNoLoc307) "POST"
        (SegArg.lst []) []).result = PyResult.raised (PyExc.keyError "location")
    ∧ (RestClient.call clientEx (transportOf respRedirNoLoc307) "POST"
        (SegArg.lst []) []).logs = [] :=
  (C10_redirect_location_read clientEx (transportOf respRedirNoLoc307) "POST"
    (SegArg.lst []) [] [] respRedirNoLoc307 rfl rfl rfl rfl).1 rfl
